import Mathlib

/-!
Shallow embedding of the stimulus Java code generator
(`src/stimulus/generators/java.py`) and the generator registry
(`src/stimulus/generators/registry.py`).

Python dictionaries (which preserve insertion order) are modelled as
association lists, exceptions as `Except`, and the Python string
operations used by the generator (`str.replace`, `str.split`,
`in`-substring tests, slicing, `capitalize`, `upper`) as executable
functions on character lists.
-/

/-- Modelled from the spec: parameter passing modes IN / OUT / INOUT of the
`base` module (not part of the given sources); §3 of the specification
defines the three convention classes. -/
inductive ParamMode where
  | IN : ParamMode
  | OUT : ParamMode
  | INOUT : ParamMode
deriving DecidableEq, Repr

/-- Modelled from the spec: the `mode_str` accessor of the `base` module;
`java.py` line 55 shows the three strings "IN", "OUT", "INOUT". -/
def ParamMode.str : ParamMode → String
  | ParamMode.IN => "IN"
  | ParamMode.OUT => "OUT"
  | ParamMode.INOUT => "INOUT"

/-- Modelled from the spec: a parameter spec has a type id and a mode
(`base` module; §3 "Parameter Spec"). The name is kept as the key of the
ordered association list holding the parameters. -/
structure ParamSpec where
  type : String
  mode : ParamMode
deriving DecidableEq, Repr

/-- Modelled from the spec: `ParamSpec.is_output` of the `base` module.
The docstring of `chunk_outconv` (java.py lines 388-396) and §4.2 of the
specification identify the outputs as the OUT and INOUT parameters. -/
def ParamSpec.is_output (p : ParamSpec) : Bool :=
  p.mode == ParamMode.OUT || p.mode == ParamMode.INOUT

/-- A type descriptor: the optional entries of the per-type rule table
consulted by `java.py` (keys CTYPE, JAVATYPE, CDECL, JAVADECL, INCONV,
OUTCONV, CALL). A missing dictionary key is `none`. -/
structure TypeDesc where
  CTYPE : Option String
  JAVATYPE : Option String
  CDECL : Option String
  JAVADECL : Option String
  INCONV : Option (List (String × String))
  OUTCONV : Option (List (String × String))
  CALL : Option String
deriving DecidableEq, Repr

/-- The empty type descriptor, i.e. the Python empty dict `{}` used as the
default of `self.types.get(type_name, {})`. -/
def TypeDesc.empty : TypeDesc :=
  ⟨none, none, none, none, none, none, none⟩

/-- The `type_param` argument of `get_function_metadata`: which
representation key of a type descriptor is consulted ("JAVATYPE" or
"CTYPE"). -/
inductive TypeParam where
  | JAVATYPE : TypeParam
  | CTYPE : TypeParam
deriving DecidableEq, Repr

def TypeParam.str : TypeParam → String
  | TypeParam.JAVATYPE => "JAVATYPE"
  | TypeParam.CTYPE => "CTYPE"

/-- Dictionary access `tdesc[type_param]` for the two representation keys. -/
def TypeDesc.getKey (t : TypeDesc) : TypeParam → Option String
  | TypeParam.JAVATYPE => t.JAVATYPE
  | TypeParam.CTYPE => t.CTYPE

/-- Modelled from the spec: the function descriptor fields used by
`java.py`: the optional "NAME-JAVA" display-name override
(`spec.get("NAME-JAVA", ...)`, line 51) and the optional explicit
return-type id (`spec.return_type`, lines 67-70). -/
structure FunctionDescriptor where
  nameJava : Option String
  return_type : Option String
deriving DecidableEq, Repr

/-- Everything the generator reads about one function: its native name,
its descriptor, its ordered parameter dictionary and its dependency map
(`get_parameters_for_function` / `get_dependencies_for_function`). -/
structure FuncEntry where
  name : String
  fd : FunctionDescriptor
  params : List (String × ParamSpec)
  deps : List (String × List String)
deriving DecidableEq, Repr

/-- Ordered-dictionary lookup: first entry whose key matches. -/
def alookup {α : Type} (k : String) : List (String × α) → Option α
  | [] => none
  | (k2, v) :: rest => if k2 = k then some v else alookup k rest

/- Python string helpers -/

/-- One step list of `str.replace`: replace every non-overlapping
occurrence of `pat` by `rep`, scanning left to right (Python
`str.replace` semantics for a non-empty pattern). The first argument is
fuel; `pyReplace` supplies the length of the scanned list, which always
suffices because every step consumes at least one character. -/
def replChars (pat rep : List Char) : Nat → List Char → List Char
  | _, [] => []
  | 0, l => l
  | n + 1, c :: cs =>
    if pat.isPrefixOf (c :: cs) && pat.length > 0 then
      rep ++ replChars pat rep n (cs.drop (pat.length - 1))
    else
      c :: replChars pat rep n cs

/-- Python `s.replace(pat, rep)` for a non-empty pattern. -/
def pyReplace (s pat rep : String) : String :=
  String.mk (replChars pat.data rep.data s.data.length s.data)

/-- Python substring test `pat in s`. -/
def hasSub (pat : List Char) : List Char → Bool
  | [] => pat.isPrefixOf []
  | c :: cs => pat.isPrefixOf (c :: cs) || hasSub pat cs

/-- Python `pat in s` on strings. -/
def pyContains (s pat : String) : Bool :=
  hasSub pat.data s.data

/-- Split a character list at every occurrence of the separator character
(Python `s.split(sep)` for a one-character separator). -/
def splitOnChar (sep : Char) : List Char → List (List Char)
  | [] => [[]]
  | c :: cs =>
    let r := splitOnChar sep cs
    if c = sep then [] :: r
    else
      match r with
      | [] => [[c]]
      | h :: t => (c :: h) :: t

/-- Python `s.capitalize()`: first character upper-cased, the rest
lower-cased (ASCII). -/
def pyCapitalize (s : String) : String :=
  match s.data with
  | [] => ""
  | c :: cs => String.mk (c.toUpper :: cs.map Char.toLower)

/-- Python `s[0].upper() + s[1:]`: only the first character upper-cased. -/
def upperFirst (s : String) : String :=
  match s.data with
  | [] => ""
  | c :: cs => String.mk (c.toUpper :: cs)

/-- Python `"%-42s" % s`: left-justify to the given width with spaces. -/
def ljust (s : String) (w : Nat) : String :=
  s ++ String.mk (List.replicate (w - s.length) ' ')

/-- `camelcase` from java.py lines 13-21: split on underscores, keep the
first part, capitalize the remaining parts, join. -/
def camelcase (s : String) : String :=
  match (splitOnChar '_' s.data).map String.mk with
  | [] => ""
  | first :: parts => String.join (first :: parts.map pyCapitalize)

/-- The metadata dictionary produced by
`JavaCodeGenerator.get_function_metadata`. -/
structure Metadata where
  name : String
  java_modifiers : String
  return_type : String
  argument_types : List String
  self_name : Option String
  is_static : Bool
  is_constructor : Bool
deriving DecidableEq, Repr

/-- Return-type resolution, java.py lines 54-74: partition the parameters
by mode; a single OUT/INOUT parameter donates its type; with zero
OUT/INOUT parameters an explicit `spec.return_type` is used; otherwise a
`StimulusError` ("calling convention unsupported yet") is raised. -/
def resolveReturnTypeName (dn : String) (fd : FunctionDescriptor)
    (params : List (String × ParamSpec)) : Except String String :=
  let outs := params.filter (fun pp => pp.2.mode == ParamMode.OUT)
  let inouts := params.filter (fun pp => pp.2.mode == ParamMode.INOUT)
  if outs.length + inouts.length = 1 then
    match outs, inouts with
    | o :: _, _ => Except.ok o.2.type
    | [], io :: _ => Except.ok io.2.type
    | [], [] => Except.error (dn ++ ": calling convention unsupported yet")
  else if outs.length + inouts.length = 0 then
    match fd.return_type with
    | some rt => Except.ok rt
    | none => Except.error (dn ++ ": calling convention unsupported yet")
  else
    Except.error (dn ++ ": calling convention unsupported yet")

/-- The loop over the IN parameters, java.py lines 77-96: the first IN
parameter of type "GRAPH" becomes the `self` argument and is skipped;
every other IN parameter must supply the requested representation key and
is appended to the method argument list. -/
def inLoop (dn : String) (tp : TypeParam) (types : List (String × TypeDesc)) :
    List (String × ParamSpec) → Bool → Option String → List String →
    Except String (Bool × Option String × List String)
  | [], foundSelf, selfName, args => Except.ok (foundSelf, selfName, args)
  | (p, pspec) :: rest, foundSelf, selfName, args =>
    if pspec.mode != ParamMode.IN then
      inLoop dn tp types rest foundSelf selfName args
    else if !foundSelf && pspec.type == "GRAPH" then
      inLoop dn tp types rest true (some p) args
    else
      match ((alookup pspec.type types).getD TypeDesc.empty).getKey tp with
      | none =>
        Except.error (dn ++ ": unknown input type " ++ pspec.type ++
          " (needs " ++ tp.str ++ "), skipping")
      | some tname => inLoop dn tp types rest foundSelf selfName (args ++ [tname ++ " " ++ p])

/-- The loop over the OUT parameters, java.py lines 98-104: if no `self`
was found among the IN parameters, the first OUT parameter of type
"GRAPH" becomes the `self` argument. -/
def findOutSelf (params : List (String × ParamSpec)) : Option String :=
  (params.find? (fun pp => pp.2.mode == ParamMode.OUT && pp.2.type == "GRAPH")).map
    (fun pp => pp.1)

/-- `JavaCodeGenerator.get_function_metadata`, java.py lines 30-123. -/
def get_function_metadata (types : List (String × TypeDesc)) (name : String)
    (fd : FunctionDescriptor) (params : List (String × ParamSpec))
    (tp : TypeParam) : Except String Metadata :=
  let baseName := fd.nameJava.getD (camelcase (name.drop 7))
  match resolveReturnTypeName baseName fd params with
  | Except.error e => Except.error e
  | Except.ok rtName =>
    match inLoop baseName tp types params false none [] with
    | Except.error e => Except.error e
    | Except.ok (found1, self1, args) =>
      let state :=
        if found1 then (true, self1)
        else
          match findOutSelf params with
          | some p => (true, some p)
          | none => (false, self1)
      match ((alookup rtName types).getD TypeDesc.empty).getKey tp with
      | none =>
        Except.error (baseName ++ ": unknown return type " ++ rtName ++ ", skipping")
      | some rt =>
        if state.1 then
          Except.ok ⟨baseName, String.intercalate " " ["public"], rt, args,
            state.2, false, false⟩
        else
          Except.ok ⟨upperFirst baseName, String.intercalate " " ["public", "static"],
            rt, args, state.2, true, false⟩

/- Chunk assembler (JavaCCodeGenerator) -/

/-- Errors escaping a chunk computation: a `StimulusError` (caught by
`generate_function` and turned into a comment) or an uncaught Python
`KeyError` from a direct dictionary access. -/
inductive GenError where
  | stimulus : String → GenError
  | keyErr : String → GenError
deriving DecidableEq, Repr

/-- Direct dictionary access `self.types[k]`: raises a `KeyError` when the
key is absent. -/
def lookupKE (types : List (String × TypeDesc)) (k : String) :
    Except GenError TypeDesc :=
  match alookup k types with
  | some t => Except.ok t
  | none => Except.error (GenError.keyErr k)

/-- Left-to-right effectful map: the Lean counterpart of a Python list
comprehension over a fallible body (first raised error wins). -/
def mapE {α β : Type} (f : α → Except GenError β) :
    List α → Except GenError (List β)
  | [] => Except.ok []
  | a :: l =>
    match f a with
    | Except.error e => Except.error e
    | Except.ok b =>
      match mapE f l with
      | Except.error e => Except.error e
      | Except.ok bs => Except.ok (b :: bs)

/-- The class attribute `package = "net.sf.igraph"` of `JavaCodeGenerator`. -/
def javaPackage : String := "net.sf.igraph"

/-- `JavaCCodeGenerator.chunk_header`, java.py lines 216-243. -/
def chunk_header (types : List (String × TypeDesc)) (name : String)
    (fd : FunctionDescriptor) (params : List (String × ParamSpec)) :
    Except String String :=
  match get_function_metadata types name fd params TypeParam.JAVATYPE with
  | Except.error e => Except.error e
  | Except.ok md =>
    let funcname := "Java_" ++ pyReplace javaPackage "." "_" ++ "_Graph_" ++ md.name
    let argTypes :=
      if md.is_static then "jclass cls" :: md.argument_types
      else ("jobject " ++ md.self_name.getD "") :: md.argument_types
    let argTypes := "JNIEnv *env" :: argTypes
    Except.ok ("JNIEXPORT " ++ md.return_type ++ " JNICALL " ++ funcname ++
      "(" ++ String.intercalate ", " argTypes ++ ")")

/-- `do_cpar` inside `chunk_declaration`, java.py lines 260-269: the native
local variable declaration of one parameter. -/
def do_cpar (types : List (String × TypeDesc)) (pname : String)
    (ps : ParamSpec) : Except GenError String :=
  match lookupKE types ps.type with
  | Except.error e => Except.error e
  | Except.ok t =>
    let cname := "c_" ++ pname
    let decl :=
      match t.CDECL with
      | some d => "  " ++ d
      | none =>
        match t.CTYPE with
        | some ct => "  " ++ ct ++ " " ++ cname ++ ";"
        | none => ""
    Except.ok (pyReplace (pyReplace decl "%C%" cname) "%I%" pname)

/-- `do_jpar` inside `chunk_declaration`, java.py lines 271-280: the
foreign (Java) local variable declaration of one OUT parameter. -/
def do_jpar (types : List (String × TypeDesc)) (pname : String)
    (ps : ParamSpec) : Except GenError String :=
  match lookupKE types ps.type with
  | Except.error e => Except.error e
  | Except.ok t =>
    let jname := "j_" ++ pname
    let decl :=
      match t.JAVADECL with
      | some d => "  " ++ d
      | none =>
        match t.JAVATYPE with
        | some jt => "  " ++ jt ++ " " ++ jname ++ ";"
        | none => ""
    Except.ok (pyReplace (pyReplace decl "%J%" jname) "%I%" pname)

/-- `JavaCCodeGenerator.chunk_declaration`, java.py lines 245-315.
`md` is `self.metadata`, the metadata resolved with "CTYPE" by
`generate_function`. -/
def chunk_declaration (types : List (String × TypeDesc)) (md : Metadata)
    (fd : FunctionDescriptor) (params : List (String × ParamSpec)) :
    Except GenError String :=
  match mapE (fun pp => do_cpar types pp.1 pp.2) params with
  | Except.error e => Except.error e
  | Except.ok inout =>
    match mapE (fun pp => do_jpar types pp.1 pp.2)
        (params.filter (fun pp => pp.2.mode == ParamMode.OUT)) with
    | Except.error e => Except.error e
    | Except.ok outdecls =>
      match (match fd.return_type with
             | some r => lookupKE types r
             | none => Except.error (GenError.keyErr "None")) with
      | Except.error e => Except.error e
      | Except.ok rt =>
        let retdecl :=
          match rt.CDECL with
          | some d => "  " ++ d
          | none =>
            match rt.CTYPE with
            | some ct => "  " ++ ct ++ " c__result;"
            | none => ""
        match (match params.filter (fun pp => pp.2.is_output) with
               | pp :: _ => Except.ok pp.2.type
               | [] =>
                 match fd.return_type with
                 | some r => Except.ok r
                 | none => Except.error (GenError.keyErr "None")) with
        | Except.error e => Except.error e
        | Except.ok rtname =>
          match lookupKE types rtname with
          | Except.error e => Except.error e
          | Except.ok rt2 =>
            let jretdecl :=
              match rt2.JAVADECL with
              | some d => "  " ++ d
              | none =>
                match rt2.JAVATYPE with
                | some jt => "  " ++ jt ++ " result;"
                | none => ""
            let decls := inout ++ outdecls ++ [retdecl, jretdecl]
            let decls :=
              if !md.is_static && rtname == "GRAPH" then
                decls ++ ["  jclass cls = (*env)->GetObjectClass(env, " ++
                  md.self_name.getD "" ++ ");"]
              else decls
            Except.ok (String.intercalate "\n" (decls.filter (fun s => s != "")))

/-- `JavaCCodeGenerator.chunk_before`, java.py lines 317-319. -/
def chunk_before : String := "  Java_igraph_before();"

/-- `do_par` inside `chunk_inconv`, java.py lines 329-343: one parameter's
input conversion, with the indexed dependency substitutions %C1%, %C2%,
... applied before the usual %C% / %I% substitution. -/
def inconvPar (types : List (String × TypeDesc)) (deps : List (String × List String))
    (pname : String) (ps : ParamSpec) : Except GenError String :=
  match lookupKE types ps.type with
  | Except.error e => Except.error e
  | Except.ok t =>
    let cname := "c_" ++ pname
    let inconv :=
      match t.INCONV with
      | some m =>
        match alookup ps.mode.str m with
        | some tm => "  " ++ tm
        | none => ""
      | none => ""
    let inconv :=
      match alookup pname deps with
      | some ds =>
        ds.enum.foldl
          (fun acc idep =>
            pyReplace acc ("%C" ++ toString (idep.1 + 1) ++ "%") ("c_" ++ idep.2))
          inconv
      | none => inconv
    Except.ok (pyReplace (pyReplace inconv "%C%" cname) "%I%" pname)

/-- `JavaCCodeGenerator.chunk_inconv`, java.py lines 321-348. -/
def chunk_inconv (types : List (String × TypeDesc))
    (deps : List (String × List String)) (params : List (String × ParamSpec)) :
    Except GenError String :=
  match mapE (fun pp => inconvPar types deps pp.1 pp.2) params with
  | Except.error e => Except.error e
  | Except.ok l => Except.ok (String.intercalate "\n" (l.filter (fun s => s != "")))

/-- `JavaCCodeGenerator.chunk_call`, java.py lines 350-374: guard on a
pending Java exception, else call the native function over every
parameter in order; a type's CALL template is substituted, otherwise the
`c_`-prefixed argument name is used. The comprehension
`[self.types[params[n].type] for n in params]` of line 356 subscripts the
type table directly, so a type id absent from the table raises an
uncaught `KeyError`. -/
def chunk_call (types : List (String × TypeDesc)) (function : String)
    (params : List (String × ParamSpec)) : Except GenError String :=
  match mapE (fun pp => lookupKE types pp.2.type) params with
  | Except.error e => Except.error e
  | Except.ok ts =>
    let call := List.zipWith (fun t n => t.CALL.getD ("c_" ++ n))
      ts (params.map (fun pp => pp.1))
    let call := List.zipWith
      (fun c n => pyReplace (pyReplace c "%C%" ("c_" ++ n)) "%I%" n)
      call (params.map (fun pp => pp.1))
    Except.ok (String.intercalate "\n"
      ["  if ((*env)->ExceptionCheck(env)) \x7b",
       "    c__result = IGRAPH_EINVAL;",
       "  \x7d else \x7b",
       "    c__result = " ++ function ++ "(" ++ String.intercalate ", " call ++ ");",
       "  \x7d"])

/-- `do_par` inside `chunk_outconv`, java.py lines 401-410: one
parameter's output conversion; %C% becomes the native name, %I% the
`j_`-prefixed foreign name. -/
def outconvPar (types : List (String × TypeDesc)) (pname : String)
    (ps : ParamSpec) : Except GenError String :=
  match lookupKE types ps.type with
  | Except.error e => Except.error e
  | Except.ok t =>
    let cname := "c_" ++ pname
    let jname := "j_" ++ pname
    let oc :=
      match t.OUTCONV with
      | some m =>
        match alookup ps.mode.str m with
        | some tm => "  " ++ tm
        | none => ""
      | none => ""
    Except.ok (pyReplace (pyReplace oc "%C%" cname) "%I%" jname)

/-- `JavaCCodeGenerator.chunk_outconv`, java.py lines 376-446. -/
def chunk_outconv (types : List (String × TypeDesc)) (fd : FunctionDescriptor)
    (function : String) (params : List (String × ParamSpec)) :
    Except GenError String :=
  match mapE (fun pp => outconvPar types pp.1 pp.2) params with
  | Except.error e => Except.error e
  | Except.ok l =>
    let outconv := l.filter (fun s => s != "")
    match params.filter (fun pp => pp.2.is_output) with
    | [] =>
      match (match fd.return_type with
             | some r => lookupKE types r
             | none => Except.error (GenError.keyErr "None")) with
      | Except.error e => Except.error e
      | Except.ok rt =>
        match (match rt.OUTCONV with
               | some m =>
                 match alookup "OUT" m with
                 | some tm => Except.ok ("  " ++ tm)
                 | none => Except.error (GenError.keyErr "OUT")
               | none => Except.ok "") with
        | Except.error e => Except.error e
        | Except.ok retconv0 =>
          let retconv := pyReplace (pyReplace retconv0 "%C%" "c__result") "%I%" "result"
          let outconv := if retconv.length > 0 then outconv ++ [retconv] else outconv
          Except.ok (String.intercalate "\n" outconv)
    | [pp] =>
      let retconv :=
        if pp.2.mode == ParamMode.OUT then "  result = j_" ++ pp.1 ++ ";"
        else "  result = " ++ pp.1 ++ ";"
      let outconv := outconv ++ [retconv]
      let outconv := "if (c__result == 0) \x7b" :: outconv ++
        ["\x7d else \x7b", "  result = 0;", "\x7d"]
      Except.ok (String.intercalate "\n" (outconv.map (fun line => "  " ++ line)))
    | _ =>
      Except.error (GenError.stimulus
        (function ++ ": the case of multiple outputs not supported yet"))

/-- `JavaCCodeGenerator.chunk_after`, java.py lines 448-450. -/
def chunk_after : String := "  Java_igraph_after();"

/-- The fixed per-function template of
`JavaCCodeGenerator.generate_function`, java.py lines 190-211. -/
def funcTemplate (func header decl before inconv call outconv after : String) :
    String :=
  "\n/*-------------------------------------------/\n/ " ++ ljust func 42 ++
  " /\n/-------------------------------------------*/\n" ++ header ++
  " \x7b\n                                        /* Declarations */\n" ++
  decl ++ "\n\n" ++ before ++
  "\n                                        /* Convert input */\n" ++
  inconv ++ "\n                                        /* Call igraph */\n" ++
  call ++ "\n                                        /* Convert output */\n" ++
  outconv ++ "\n\n" ++ after ++ "\n\n  return result;\n\x7d\n"

namespace JavaC

/-- The `try` block of `JavaCCodeGenerator.generate_function`, java.py
lines 175-187: assemble the chunks in source order; the first error wins. -/
def assemble (types : List (String × TypeDesc)) (md : Metadata)
    (fe : FuncEntry) : Except GenError String :=
  match chunk_header types fe.name fe.fd fe.params with
  | Except.error e => Except.error (GenError.stimulus e)
  | Except.ok header =>
    match chunk_declaration types md fe.fd fe.params with
    | Except.error e => Except.error e
    | Except.ok decl =>
      match chunk_inconv types fe.deps fe.params with
      | Except.error e => Except.error e
      | Except.ok inconv =>
        match chunk_call types fe.name fe.params with
        | Except.error e => Except.error e
        | Except.ok call =>
          match chunk_outconv types fe.fd fe.name fe.params with
          | Except.error e => Except.error e
          | Except.ok outconv =>
            Except.ok (funcTemplate fe.name header decl chunk_before inconv
              call outconv chunk_after)

/-- `JavaCCodeGenerator.generate_function`, java.py lines 153-214: the
`.ok` value is the text written to the output for this function. A
`StimulusError` raised by metadata resolution or chunk assembly is caught
and written as a `/* ... */` comment; a parameter whose type id is absent
from the type table is detected by the pre-check of lines 163-168, which
logs and returns without writing; only an uncaught `KeyError` escapes. -/
def generate_function (types : List (String × TypeDesc)) (fe : FuncEntry) :
    Except GenError String :=
  match get_function_metadata types fe.name fe.fd fe.params TypeParam.CTYPE with
  | Except.error e => Except.ok ("/* " ++ e ++ " */\n")
  | Except.ok md =>
    if fe.params.any (fun pp => (alookup pp.2.type types).isNone) then
      Except.ok ""
    else
      match assemble types md fe with
      | Except.error (GenError.stimulus e) => Except.ok ("/* " ++ e ++ " */\n")
      | Except.error (GenError.keyErr k) => Except.error (GenError.keyErr k)
      | Except.ok text => Except.ok text

/-- Modelled from the spec: the Emitter / driving loop of the `base`
module (not among the given sources). §4.3: it iterates the function
descriptor set in declaration order, invokes `generate_function` for each
function and appends its output to the single output stream. -/
def generate (types : List (String × TypeDesc)) :
    List FuncEntry → Except GenError String
  | [] => Except.ok ""
  | fe :: rest =>
    match generate_function types fe with
    | Except.error e => Except.error e
    | Except.ok s =>
      match generate types rest with
      | Except.error e => Except.error e
      | Except.ok r => Except.ok (s ++ r)

end JavaC

namespace JavaJava

/-- `JavaJavaCodeGenerator.generate_function`, java.py lines 140-149: the
one-line native method signature, or a `// ...` comment when metadata
resolution raises a `StimulusError`. -/
def generate_function (types : List (String × TypeDesc)) (fe : FuncEntry) :
    String :=
  match get_function_metadata types fe.name fe.fd fe.params TypeParam.JAVATYPE with
  | Except.error e => "    // " ++ e ++ "\n"
  | Except.ok md =>
    "    " ++ md.java_modifiers ++ " native " ++ md.return_type ++ " " ++
      md.name ++ "(" ++ String.intercalate ", " md.argument_types ++ ");\n"

/-- The test `"%STIMULUS%" not in line` of java.py line 133 (negated). -/
def containsMarker (line : String) : Bool :=
  pyContains line "%STIMULUS%"

/-- The per-line loop of `JavaJavaCodeGenerator.generate`, java.py lines
132-138: a line without the marker is written unchanged; a line holding
the marker is replaced by the signatures of all functions in declaration
order. -/
def processLines (types : List (String × TypeDesc)) (fns : List FuncEntry) :
    List String → String
  | [] => ""
  | line :: rest =>
    (if containsMarker line then
      String.join (fns.map (generate_function types))
    else line) ++ processLines types fns rest

/-- `JavaJavaCodeGenerator.generate`, java.py lines 127-138. An input
source is its list of lines (each line keeping its trailing newline, as
Python file iteration yields them). -/
def generate (types : List (String × TypeDesc)) (fns : List FuncEntry)
    (inputs : List (List String)) : Except String String :=
  if inputs.length > 1 then
    Except.error "Java code generator supports only a single input"
  else
    Except.ok (processLines types fns (inputs.headD []))

end JavaJava

/- Registry (registry.py) -/

/-- The code generator classes registered by
`_register_code_generators`, registry.py lines 46-72. -/
inductive CodeGen where
  | listTypes : CodeGen
  | javaC : CodeGen
  | javaJava : CodeGen
  | rC : CodeGen
  | rInit : CodeGen
  | rR : CodeGen
  | shell : CodeGen
deriving DecidableEq, Repr

/-- The `updates` dictionary of `_register_code_generators`, registry.py
lines 57-70, including the legacy names. -/
def registryEntries : List (String × CodeGen) :=
  [("debug:list-types", CodeGen.listTypes),
   ("java:c", CodeGen.javaC),
   ("java:java", CodeGen.javaJava),
   ("r:c", CodeGen.rC),
   ("r:init", CodeGen.rInit),
   ("r:r", CodeGen.rR),
   ("shell", CodeGen.shell),
   ("RC", CodeGen.rC),
   ("RInit", CodeGen.rInit),
   ("RR", CodeGen.rR),
   ("Shell", CodeGen.shell)]

/-- `get_code_generator_factory_for_language`, registry.py lines 20-32:
`_registry[lang]` raises a `KeyError` for an unregistered language. -/
def get_code_generator_factory_for_language (lang : String) :
    Except Unit CodeGen :=
  match alookup lang registryEntries with
  | some g => Except.ok g
  | none => Except.error ()

/-- `is_valid_language`, registry.py lines 35-43: catches the `KeyError`
and returns `false` instead. -/
def is_valid_language (lang : String) : Bool :=
  match get_code_generator_factory_for_language lang with
  | Except.ok _ => true
  | Except.error _ => false

/- Helper lemmas -/

lemma strAppendAssoc (a b c : String) : a ++ b ++ c = a ++ (b ++ c) := by
  rcases a with ⟨la⟩; rcases b with ⟨lb⟩; rcases c with ⟨lc⟩
  exact congrArg String.mk (List.append_assoc la lb lc)

lemma strJoinCons (s : String) (l : List String) :
    String.join (s :: l) = s ++ String.join l := by
  rcases s with ⟨d⟩
  rw [String.join_eq, String.join_eq]
  show String.mk ((List.map String.data (⟨d⟩ :: l)).flatten) = _
  rw [List.map_cons, List.flatten_cons]
  rfl

lemma alookup_isSome_iff {α : Type} (k : String) (l : List (String × α)) :
    (alookup k l).isSome = true ↔ k ∈ l.map Prod.fst := by
  induction l with
  | nil => simp [alookup]
  | cons a l ih =>
    obtain ⟨k2, v⟩ := a
    by_cases hk : k2 = k
    · subst hk; simp [alookup]
    · simp only [alookup, if_neg hk, List.map_cons, List.mem_cons, ih]
      constructor
      · intro h; exact Or.inr h
      · rintro (h | h)
        · exact absurd h.symm hk
        · exact h

lemma alookup_eq_none_of_not_mem {α : Type} (k : String) (l : List (String × α))
    (h : k ∉ l.map Prod.fst) : alookup k l = none := by
  cases halook : alookup k l with
  | none => rfl
  | some v =>
    exact absurd ((alookup_isSome_iff k l).1 (by rw [halook]; rfl)) h


lemma filter_mode_or_nil (params : List (String × ParamSpec))
    (h : params.filter
      (fun pp => pp.2.mode == ParamMode.OUT || pp.2.mode == ParamMode.INOUT) = []) :
    params.filter (fun pp => pp.2.mode == ParamMode.OUT) = [] ∧
    params.filter (fun pp => pp.2.mode == ParamMode.INOUT) = [] := by
  induction params with
  | nil => exact ⟨rfl, rfl⟩
  | cons pp rest ih =>
    rw [List.filter_cons] at h
    rw [List.filter_cons, List.filter_cons]
    cases hm : pp.2.mode with
    | IN =>
      rw [hm] at h
      rw [if_neg (by decide)] at h
      rw [if_neg (by decide), if_neg (by decide)]
      exact ih h
    | OUT =>
      rw [hm] at h
      rw [if_pos (by decide)] at h
      exact absurd h (List.cons_ne_nil _ _)
    | INOUT =>
      rw [hm] at h
      rw [if_pos (by decide)] at h
      exact absurd h (List.cons_ne_nil _ _)

lemma filter_mode_or_single (params : List (String × ParamSpec)) (q : String × ParamSpec)
    (h : params.filter
      (fun pp => pp.2.mode == ParamMode.OUT || pp.2.mode == ParamMode.INOUT) = [q]) :
    (params.filter (fun pp => pp.2.mode == ParamMode.OUT) = [q] ∧
      params.filter (fun pp => pp.2.mode == ParamMode.INOUT) = []) ∨
    (params.filter (fun pp => pp.2.mode == ParamMode.OUT) = [] ∧
      params.filter (fun pp => pp.2.mode == ParamMode.INOUT) = [q]) := by
  induction params with
  | nil => exact absurd h (by simp)
  | cons pp rest ih =>
    rw [List.filter_cons] at h
    rw [List.filter_cons, List.filter_cons]
    cases hm : pp.2.mode with
    | IN =>
      rw [hm] at h
      rw [if_neg (by decide)] at h
      rw [if_neg (by decide), if_neg (by decide)]
      exact ih h
    | OUT =>
      rw [hm] at h
      rw [if_pos (by decide)] at h
      injection h with h1 h2
      obtain ⟨hn1, hn2⟩ := filter_mode_or_nil rest h2
      rw [if_pos (by decide), if_neg (by decide), hn1, hn2, h1]
      exact Or.inl ⟨rfl, rfl⟩
    | INOUT =>
      rw [hm] at h
      rw [if_pos (by decide)] at h
      injection h with h1 h2
      obtain ⟨hn1, hn2⟩ := filter_mode_or_nil rest h2
      rw [if_neg (by decide), if_pos (by decide), hn1, hn2, h1]
      exact Or.inr ⟨rfl, rfl⟩

lemma filter_mode_or_len (params : List (String × ParamSpec)) :
    (params.filter (fun pp => pp.2.mode == ParamMode.OUT)).length +
      (params.filter (fun pp => pp.2.mode == ParamMode.INOUT)).length =
    (params.filter
      (fun pp => pp.2.mode == ParamMode.OUT || pp.2.mode == ParamMode.INOUT)).length := by
  induction params with
  | nil => rfl
  | cons pp rest ih =>
    rw [List.filter_cons, List.filter_cons, List.filter_cons]
    cases hm : pp.2.mode with
    | IN =>
      rw [if_neg (by decide), if_neg (by decide), if_neg (by decide)]
      exact ih
    | OUT =>
      rw [if_pos (by decide), if_neg (by decide), if_pos (by decide)]
      simp only [List.length_cons]
      omega
    | INOUT =>
      rw [if_neg (by decide), if_pos (by decide), if_pos (by decide)]
      simp only [List.length_cons]
      omega

lemma inLoop_found_char (dn : String) (tp : TypeParam) (types : List (String × TypeDesc)) :
    ∀ (ps : List (String × ParamSpec)) (sn : Option String) (args : List String)
      (r : Bool × Option String × List String),
      inLoop dn tp types ps true sn args = Except.ok r → r.1 = true ∧ r.2.1 = sn := by
  intro ps
  induction ps with
  | nil =>
    intro sn args r h
    simp only [inLoop] at h
    cases h
    exact ⟨rfl, rfl⟩
  | cons pp rest ih =>
    intro sn args r h
    obtain ⟨p, pspec⟩ := pp
    simp only [inLoop] at h
    split at h
    · exact ih sn args r h
    · split at h
      · rename_i hcond
        simp at hcond
      · split at h
        · exact Except.noConfusion h
        · exact ih sn _ r h

lemma inLoop_none_char (dn : String) (tp : TypeParam) (types : List (String × TypeDesc)) :
    ∀ (ps : List (String × ParamSpec)) (args : List String)
      (r : Bool × Option String × List String),
      inLoop dn tp types ps false none args = Except.ok r →
      r.1 = (ps.find? (fun pp => pp.2.mode == ParamMode.IN && pp.2.type == "GRAPH")).isSome ∧
      r.2.1 = (ps.find? (fun pp => pp.2.mode == ParamMode.IN && pp.2.type == "GRAPH")).map
        (fun pp => pp.1) := by
  intro ps
  induction ps with
  | nil =>
    intro args r h
    simp only [inLoop] at h
    cases h
    exact ⟨rfl, rfl⟩
  | cons pp rest ih =>
    intro args r h
    obtain ⟨p, pspec⟩ := pp
    simp only [inLoop] at h
    split at h
    · rename_i hcond
      have hm : ¬((pspec.mode == ParamMode.IN) = true) := by
        simp only [bne_iff_ne, ne_eq] at hcond
        simp [hcond]
      rw [List.find?_cons_of_neg _ (by simp only [Bool.and_eq_true]; tauto)]
      exact ih args r h
    · rename_i hcond1
      split at h
      · rename_i hcond2
        have hm : (pspec.mode == ParamMode.IN) = true := by
          simp only [bne_iff_ne, ne_eq, not_not] at hcond1
          simp [hcond1]
        simp only [Bool.not_false, Bool.true_and] at hcond2
        obtain ⟨hr1, hr2⟩ := inLoop_found_char dn tp types rest (some p) args r h
        rw [List.find?_cons_of_pos _ (by simp only [Bool.and_eq_true]; exact ⟨hm, hcond2⟩)]
        exact ⟨by simp [hr1], by simp [hr2]⟩
      · rename_i hcond2
        simp only [Bool.not_false, Bool.true_and] at hcond2
        split at h
        · exact Except.noConfusion h
        · rw [List.find?_cons_of_neg _ (by
            simp only [Bool.and_eq_true]
            intro hand
            exact hcond2 hand.2)]
          exact ih _ r h

lemma interPublic : String.intercalate " " ["public"] = "public" := by decide

lemma interPublicStatic :
    String.intercalate " " ["public", "static"] = "public static" := by decide

lemma gfm_ok_inv (types : List (String × TypeDesc)) (name : String)
    (fd : FunctionDescriptor) (params : List (String × ParamSpec))
    (tp : TypeParam) (md : Metadata)
    (h : get_function_metadata types name fd params tp = Except.ok md) :
    md.self_name = (match params.find?
        (fun pp => pp.2.mode == ParamMode.IN && pp.2.type == "GRAPH") with
      | some pp => some pp.1
      | none => findOutSelf params) ∧
    md.is_static = ((params.find?
        (fun pp => pp.2.mode == ParamMode.IN && pp.2.type == "GRAPH")).isNone &&
      (findOutSelf params).isNone) ∧
    md.name = (if md.is_static = true
      then upperFirst (fd.nameJava.getD (camelcase (name.drop 7)))
      else fd.nameJava.getD (camelcase (name.drop 7))) ∧
    md.java_modifiers = (if md.is_static = true then "public static" else "public") := by
  simp only [get_function_metadata] at h
  split at h
  · exact Except.noConfusion h
  · split at h
    · exact Except.noConfusion h
    · rename_i found1 self1 args hloop
      obtain ⟨hf1, hs1⟩ := inLoop_none_char
        (fd.nameJava.getD (camelcase (name.drop 7))) tp types params []
        (found1, self1, args) hloop
      simp only at hf1 hs1
      cases hfind : params.find?
          (fun pp => pp.2.mode == ParamMode.IN && pp.2.type == "GRAPH") with
      | some q =>
        rw [hfind] at hf1 hs1
        simp only [Option.isSome_some, Option.map_some] at hf1 hs1
        subst hf1
        subst hs1
        split at h
        · exact Except.noConfusion h
        · simp at h
          subst h
          refine ⟨by simp [hfind], by simp [hfind], by simp, by simp [interPublic]⟩
      | none =>
        rw [hfind] at hf1 hs1
        simp only [Option.isSome_none, Option.map_none'] at hf1 hs1
        subst hf1
        subst hs1
        cases hout : findOutSelf params with
        | some p2 =>
          rw [hout] at h
          split at h
          · exact Except.noConfusion h
          · simp at h
            subst h
            refine ⟨by simp [hfind, hout], by simp [hfind, hout], by simp,
              by simp [interPublic]⟩
        | none =>
          rw [hout] at h
          split at h
          · exact Except.noConfusion h
          · simp at h
            subst h
            refine ⟨by simp [hfind, hout], by simp [hfind, hout], by simp,
              by simp [interPublicStatic]⟩

/- Example data used by the concrete instances -/

/-- An example INTEGER type descriptor (native `igraph_integer_t`, foreign
`jint`, with an output conversion for mode OUT). -/
def tdINTEGER : TypeDesc :=
  ⟨some "igraph_integer_t", some "jint", none, none, none,
   some [("OUT", "%I% = (jint)%C%;")], none⟩

/-- An example GRAPH (handle type) descriptor. -/
def tdGRAPH : TypeDesc :=
  ⟨some "igraph_t", some "Graph", none, none, none, none, none⟩

/-- An example type table holding INTEGER and GRAPH. -/
def exTypes : List (String × TypeDesc) := [("INTEGER", tdINTEGER), ("GRAPH", tdGRAPH)]

/- Claim theorems -/

/-- Claim C1: for every function descriptor resolved against a type table:
if exactly one parameter has mode OUT or INOUT, the resolved return type is
that parameter's type id; if no parameter has mode OUT or INOUT and the
descriptor supplies an explicit return-type override, the resolved return
type is the override; in every other case (no OUT/INOUT parameter and no
override, or two or more OUT/INOUT parameters, regardless of other fields)
resolution fails with the UnsupportedCallingConvention error ("calling
convention unsupported yet"). -/
theorem claim_C1_return_type (dn : String) (fd : FunctionDescriptor)
    (params : List (String × ParamSpec)) :
    (∀ q, params.filter
        (fun pp => pp.2.mode == ParamMode.OUT || pp.2.mode == ParamMode.INOUT) = [q] →
      resolveReturnTypeName dn fd params = Except.ok q.2.type) ∧
    (∀ rt, params.filter
        (fun pp => pp.2.mode == ParamMode.OUT || pp.2.mode == ParamMode.INOUT) = [] →
      fd.return_type = some rt →
      resolveReturnTypeName dn fd params = Except.ok rt) ∧
    (params.filter
        (fun pp => pp.2.mode == ParamMode.OUT || pp.2.mode == ParamMode.INOUT) = [] →
      fd.return_type = none →
      resolveReturnTypeName dn fd params =
        Except.error (dn ++ ": calling convention unsupported yet")) ∧
    (2 ≤ (params.filter
        (fun pp => pp.2.mode == ParamMode.OUT || pp.2.mode == ParamMode.INOUT)).length →
      resolveReturnTypeName dn fd params =
        Except.error (dn ++ ": calling convention unsupported yet")) := by
  refine ⟨?_, ?_, ?_, ?_⟩
  · intro q hq
    rcases filter_mode_or_single params q hq with ⟨ho, hi⟩ | ⟨ho, hi⟩ <;>
      (simp only [resolveReturnTypeName]; rw [ho, hi]; simp)
  · intro rt hnil hrt
    obtain ⟨ho, hi⟩ := filter_mode_or_nil params hnil
    simp only [resolveReturnTypeName]
    rw [ho, hi, hrt]
    simp
  · intro hnil hrt
    obtain ⟨ho, hi⟩ := filter_mode_or_nil params hnil
    simp only [resolveReturnTypeName]
    rw [ho, hi, hrt]
    simp
  · intro hlen
    have hsum := filter_mode_or_len params
    simp only [resolveReturnTypeName]
    rw [if_neg (by omega), if_neg (by omega)]

/-- Witness for C1: the four cases at concrete inputs. -/
theorem claim_C1_return_type_witness :
    resolveReturnTypeName "f" ⟨none, some "INTEGER"⟩
        [("v", ⟨"VECTOR", ParamMode.OUT⟩)] = Except.ok "VECTOR" ∧
    resolveReturnTypeName "f" ⟨none, some "INTEGER"⟩
        [("a", ⟨"INTEGER", ParamMode.IN⟩)] = Except.ok "INTEGER" ∧
    resolveReturnTypeName "f" ⟨none, none⟩ [] =
      Except.error ("f" ++ ": calling convention unsupported yet") ∧
    resolveReturnTypeName "f" ⟨none, none⟩
        [("v", ⟨"V", ParamMode.OUT⟩), ("w", ⟨"V", ParamMode.INOUT⟩)] =
      Except.error ("f" ++ ": calling convention unsupported yet") :=
  ⟨(claim_C1_return_type "f" ⟨none, some "INTEGER"⟩ _).1
      ("v", ⟨"VECTOR", ParamMode.OUT⟩) (by decide),
   (claim_C1_return_type "f" ⟨none, some "INTEGER"⟩ _).2.1 "INTEGER" (by decide) rfl,
   (claim_C1_return_type "f" ⟨none, none⟩ _).2.2.1 (by decide) rfl,
   (claim_C1_return_type "f" ⟨none, none⟩ _).2.2.2 (by decide)⟩

/-- Claim C2: receiver ("self") selection scans the IN parameters in
declared order and designates the first one of type GRAPH as the receiver,
excluding it from the foreign argument list; only if none matches are the
OUT parameters scanned in declared order; at most one receiver is selected
(the resolved `self_name` is a single `Option`), and for the ordered
parameters [(a, IN, INTEGER), (b, IN, GRAPH), (c, IN, GRAPH)] the receiver
is b and the argument list keeps a and c only. -/
theorem claim_C2_receiver :
    (∀ (types : List (String × TypeDesc)) (name : String) (fd : FunctionDescriptor)
        (params : List (String × ParamSpec)) (tp : TypeParam) (md : Metadata),
      get_function_metadata types name fd params tp = Except.ok md →
      md.self_name = (match params.find?
          (fun pp => pp.2.mode == ParamMode.IN && pp.2.type == "GRAPH") with
        | some pp => some pp.1
        | none => findOutSelf params)) ∧
    get_function_metadata exTypes "igraph_f" ⟨none, some "INTEGER"⟩
        [("a", ⟨"INTEGER", ParamMode.IN⟩), ("b", ⟨"GRAPH", ParamMode.IN⟩),
         ("c", ⟨"GRAPH", ParamMode.IN⟩)] TypeParam.JAVATYPE =
      Except.ok ⟨"f", "public", "jint", ["jint a", "Graph c"], some "b", false, false⟩ := by
  constructor
  · intro types name fd params tp md h
    exact (gfm_ok_inv types name fd params tp md h).1
  · rfl

/-- Witness for C2: the general receiver characterization applied to the
concrete three-parameter example. -/
theorem claim_C2_receiver_witness :
    (⟨"f", "public", "jint", ["jint a", "Graph c"], some "b", false, false⟩ :
        Metadata).self_name =
      (match [("a", (⟨"INTEGER", ParamMode.IN⟩ : ParamSpec)),
          ("b", ⟨"GRAPH", ParamMode.IN⟩), ("c", ⟨"GRAPH", ParamMode.IN⟩)].find?
          (fun pp => pp.2.mode == ParamMode.IN && pp.2.type == "GRAPH") with
        | some pp => some pp.1
        | none => findOutSelf [("a", ⟨"INTEGER", ParamMode.IN⟩),
            ("b", ⟨"GRAPH", ParamMode.IN⟩), ("c", ⟨"GRAPH", ParamMode.IN⟩)]) :=
  claim_C2_receiver.1 exTypes "igraph_f" ⟨none, some "INTEGER"⟩ _
    TypeParam.JAVATYPE _ claim_C2_receiver.2

/-- Claim C7: the resolved metadata's is_static flag is true iff no
receiver parameter was found (equivalently, iff `self_name` is none), and
in exactly the static case the resolved display name is the same base name
with its first character upper-cased, with the "static" modifier added. -/
theorem claim_C7_static (types : List (String × TypeDesc)) (name : String)
    (fd : FunctionDescriptor) (params : List (String × ParamSpec))
    (tp : TypeParam) (md : Metadata)
    (h : get_function_metadata types name fd params tp = Except.ok md) :
    (md.is_static = true ↔ md.self_name = none) ∧
    md.is_static = ((params.find?
        (fun pp => pp.2.mode == ParamMode.IN && pp.2.type == "GRAPH")).isNone &&
      (findOutSelf params).isNone) ∧
    md.name = (if md.is_static = true
      then upperFirst (fd.nameJava.getD (camelcase (name.drop 7)))
      else fd.nameJava.getD (camelcase (name.drop 7))) ∧
    md.java_modifiers = (if md.is_static = true then "public static" else "public") := by
  obtain ⟨h1, h2, h3, h4⟩ := gfm_ok_inv types name fd params tp md h
  refine ⟨?_, h2, h3, h4⟩
  rw [h1, h2]
  cases hfind : params.find?
      (fun pp => pp.2.mode == ParamMode.IN && pp.2.type == "GRAPH") with
  | some q => simp
  | none => cases hout : findOutSelf params <;> simp

/-- Witness for C7 at a concrete static function (no parameters, explicit
GRAPH return type). -/
theorem claim_C7_static_witness :
    ((⟨"Empty", "public static", "Graph", [], none, true, false⟩ : Metadata).is_static = true ↔
      (⟨"Empty", "public static", "Graph", [], none, true, false⟩ : Metadata).self_name = none) ∧
    (⟨"Empty", "public static", "Graph", [], none, true, false⟩ : Metadata).is_static =
      ((([] : List (String × ParamSpec)).find?
          (fun pp => pp.2.mode == ParamMode.IN && pp.2.type == "GRAPH")).isNone &&
        (findOutSelf []).isNone) ∧
    (⟨"Empty", "public static", "Graph", [], none, true, false⟩ : Metadata).name =
      (if (⟨"Empty", "public static", "Graph", [], none, true, false⟩ : Metadata).is_static = true
        then upperFirst ((none : Option String).getD (camelcase ("igraph_empty".drop 7)))
        else (none : Option String).getD (camelcase ("igraph_empty".drop 7))) ∧
    (⟨"Empty", "public static", "Graph", [], none, true, false⟩ : Metadata).java_modifiers =
      (if (⟨"Empty", "public static", "Graph", [], none, true, false⟩ : Metadata).is_static = true
        then "public static" else "public") :=
  claim_C7_static exTypes "igraph_empty" ⟨none, some "GRAPH"⟩ [] TypeParam.JAVATYPE
    ⟨"Empty", "public static", "Graph", [], none, true, false⟩ (by rfl)

/-- Claim C8: for every function descriptor with exactly one OUT or INOUT
parameter that also declares an explicit return-type override, the
return-type resolution step succeeds and yields that parameter's type: the
explicit override is silently ignored (resolution is identical to the same
descriptor without the override), with no error or warning. -/
theorem claim_C8_override_ignored (types : List (String × TypeDesc)) (name : String)
    (nj : Option String) (rt : String) (params : List (String × ParamSpec))
    (tp : TypeParam) (qn : String) (qp : ParamSpec)
    (hq : params.filter (fun pp => pp.2.is_output) = [(qn, qp)]) :
    (∀ dn, resolveReturnTypeName dn ⟨nj, some rt⟩ params = Except.ok qp.type) ∧
    get_function_metadata types name ⟨nj, some rt⟩ params tp =
      get_function_metadata types name ⟨nj, none⟩ params tp := by
  have hq' : params.filter
      (fun pp => pp.2.mode == ParamMode.OUT || pp.2.mode == ParamMode.INOUT) = [(qn, qp)] := by
    simpa only [ParamSpec.is_output] using hq
  have hres : ∀ (fd : FunctionDescriptor) (dn : String),
      resolveReturnTypeName dn fd params = Except.ok qp.type := by
    intro fd dn
    rcases filter_mode_or_single params (qn, qp) hq' with ⟨ho, hi⟩ | ⟨ho, hi⟩ <;>
      (simp only [resolveReturnTypeName]; rw [ho, hi]; simp)
  refine ⟨fun dn => hres ⟨nj, some rt⟩ dn, ?_⟩
  simp only [get_function_metadata]
  rw [hres ⟨nj, some rt⟩ _, hres ⟨nj, none⟩ _]

/-- Witness for C8 at a concrete descriptor with one OUT parameter and an
override. -/
theorem claim_C8_override_ignored_witness :
    resolveReturnTypeName "g" ⟨none, some "INTEGER"⟩
        [("res", ⟨"GRAPH", ParamMode.OUT⟩)] = Except.ok "GRAPH" ∧
    get_function_metadata exTypes "igraph_g" ⟨none, some "INTEGER"⟩
        [("res", ⟨"GRAPH", ParamMode.OUT⟩)] TypeParam.JAVATYPE =
      get_function_metadata exTypes "igraph_g" ⟨none, none⟩
        [("res", ⟨"GRAPH", ParamMode.OUT⟩)] TypeParam.JAVATYPE :=
  ⟨(claim_C8_override_ignored exTypes "igraph_g" none "INTEGER"
      [("res", ⟨"GRAPH", ParamMode.OUT⟩)] TypeParam.JAVATYPE "res"
      ⟨"GRAPH", ParamMode.OUT⟩ (by decide)).1 "g",
   (claim_C8_override_ignored exTypes "igraph_g" none "INTEGER"
      [("res", ⟨"GRAPH", ParamMode.OUT⟩)] TypeParam.JAVATYPE "res"
      ⟨"GRAPH", ParamMode.OUT⟩ (by decide)).2⟩

/-- Claim C10: is_valid_language returns true exactly for the registered
language codes (including the legacy names) and false, rather than
raising, for any other string, whereas
get_code_generator_factory_for_language raises a KeyError for an
unregistered language. -/
theorem claim_C10_registry (lang : String) :
    (is_valid_language lang = true ↔
      lang ∈ ["debug:list-types", "java:c", "java:java", "r:c", "r:init", "r:r",
        "shell", "RC", "RInit", "RR", "Shell"]) ∧
    (lang ∉ ["debug:list-types", "java:c", "java:java", "r:c", "r:init", "r:r",
        "shell", "RC", "RInit", "RR", "Shell"] →
      get_code_generator_factory_for_language lang = Except.error ()) := by
  have hmap : registryEntries.map Prod.fst =
      ["debug:list-types", "java:c", "java:java", "r:c", "r:init", "r:r",
       "shell", "RC", "RInit", "RR", "Shell"] := rfl
  have hiff := alookup_isSome_iff lang registryEntries
  rw [hmap] at hiff
  constructor
  · rw [← hiff]
    cases halook : alookup lang registryEntries <;>
      simp [is_valid_language, get_code_generator_factory_for_language, halook]
  · intro hnm
    have hnone : alookup lang registryEntries = none :=
      alookup_eq_none_of_not_mem lang registryEntries (by rw [hmap]; exact hnm)
    simp only [get_code_generator_factory_for_language]
    rw [hnone]

/-- Witness for C10: "python" is unregistered (KeyError), "java:c" is
valid. -/
theorem claim_C10_registry_witness :
    get_code_generator_factory_for_language "python" = Except.error () ∧
    is_valid_language "java:c" = true :=
  ⟨(claim_C10_registry "python").2 (by decide),
   (claim_C10_registry "java:c").1.mpr (by decide)⟩

/-- Claim C4: the igraph_vcount end-to-end example. For any type table in
which INTEGER has a JAVATYPE representation and GRAPH supplies no CALL
template (the default naming), the descriptor
{name: igraph_vcount, params: [(graph, IN, GRAPH)], return_type: INTEGER}
resolves to a non-static method named "vcount" with receiver "graph" whose
return type is INTEGER's foreign representation, and the call chunk
contains "c__result = igraph_vcount(c_graph);" built with c_-prefixed
native names. -/
theorem claim_C4_vcount (types : List (String × TypeDesc)) (ti tg : TypeDesc)
    (jrt : String)
    (h1 : alookup "INTEGER" types = some ti) (h2 : ti.JAVATYPE = some jrt)
    (h3 : alookup "GRAPH" types = some tg) (h4 : tg.CALL = none) :
    get_function_metadata types "igraph_vcount" ⟨none, some "INTEGER"⟩
        [("graph", ⟨"GRAPH", ParamMode.IN⟩)] TypeParam.JAVATYPE =
      Except.ok ⟨"vcount", "public", jrt, [], some "graph", false, false⟩ ∧
    chunk_call types "igraph_vcount" [("graph", ⟨"GRAPH", ParamMode.IN⟩)] =
      Except.ok "  if ((*env)->ExceptionCheck(env)) \x7b\n    c__result = IGRAPH_EINVAL;\n  \x7d else \x7b\n    c__result = igraph_vcount(c_graph);\n  \x7d" ∧
    pyContains "  if ((*env)->ExceptionCheck(env)) \x7b\n    c__result = IGRAPH_EINVAL;\n  \x7d else \x7b\n    c__result = igraph_vcount(c_graph);\n  \x7d"
      "c__result = igraph_vcount(c_graph);" = true := by
  have hts : mapE (fun pp => lookupKE types pp.2.type)
      [("graph", (⟨"GRAPH", ParamMode.IN⟩ : ParamSpec))] = Except.ok [tg] := by
    simp only [mapE, lookupKE, h3]
  have hcall : chunk_call types "igraph_vcount" [("graph", ⟨"GRAPH", ParamMode.IN⟩)] =
      Except.ok "  if ((*env)->ExceptionCheck(env)) \x7b\n    c__result = IGRAPH_EINVAL;\n  \x7d else \x7b\n    c__result = igraph_vcount(c_graph);\n  \x7d" := by
    simp only [chunk_call, hts]
    dsimp only [List.map_cons, List.map_nil, List.zipWith]
    rw [h4]
    rfl
  refine ⟨?_, hcall, by decide⟩
  simp only [get_function_metadata]
  rw [show (⟨none, some "INTEGER"⟩ : FunctionDescriptor).nameJava.getD
      (camelcase ("igraph_vcount".drop 7)) = "vcount" from rfl]
  rw [show resolveReturnTypeName "vcount" ⟨none, some "INTEGER"⟩
      [("graph", ⟨"GRAPH", ParamMode.IN⟩)] = Except.ok "INTEGER" from rfl]
  rw [show inLoop "vcount" TypeParam.JAVATYPE types
      [("graph", ⟨"GRAPH", ParamMode.IN⟩)] false none [] =
      Except.ok (true, some "graph", []) from rfl]
  dsimp only
  rw [h1]
  simp only [Option.getD_some]
  rw [show ti.getKey TypeParam.JAVATYPE = ti.JAVATYPE from rfl, h2]
  simp [interPublic]

/-- Witness for C4 at the concrete example type table. -/
theorem claim_C4_vcount_witness :
    get_function_metadata exTypes "igraph_vcount" ⟨none, some "INTEGER"⟩
        [("graph", ⟨"GRAPH", ParamMode.IN⟩)] TypeParam.JAVATYPE =
      Except.ok ⟨"vcount", "public", "jint", [], some "graph", false, false⟩ ∧
    chunk_call exTypes "igraph_vcount" [("graph", ⟨"GRAPH", ParamMode.IN⟩)] =
      Except.ok "  if ((*env)->ExceptionCheck(env)) \x7b\n    c__result = IGRAPH_EINVAL;\n  \x7d else \x7b\n    c__result = igraph_vcount(c_graph);\n  \x7d" ∧
    pyContains "  if ((*env)->ExceptionCheck(env)) \x7b\n    c__result = IGRAPH_EINVAL;\n  \x7d else \x7b\n    c__result = igraph_vcount(c_graph);\n  \x7d"
      "c__result = igraph_vcount(c_graph);" = true :=
  claim_C4_vcount exTypes tdINTEGER tdGRAPH "jint" rfl rfl rfl rfl

lemma mapE_lookupKE_ok (types : List (String × TypeDesc))
    (params : List (String × ParamSpec))
    (h : ∀ pp ∈ params, (alookup pp.2.type types).isSome = true) :
    mapE (fun pp => lookupKE types pp.2.type) params =
      Except.ok (params.map (fun pp => (alookup pp.2.type types).getD TypeDesc.empty)) := by
  induction params with
  | nil => rfl
  | cons pp rest ih =>
    have hpp := h pp (by simp)
    cases halook : alookup pp.2.type types with
    | none => rw [halook] at hpp; simp at hpp
    | some t =>
      have hrest := ih (fun x hx => h x (by simp [hx]))
      simp only [mapE, hrest, List.map_cons]
      simp only [lookupKE, halook, Option.getD_some]

/-- Claim C5: the call chunk first tests the external error condition; when
it holds the native function is not called and c__result is assigned
IGRAPH_EINVAL; otherwise the native function is invoked with one argument
per parameter, positionally in declared order, each argument being the
type's CALL template with %C% and %I% substituted if present and otherwise
the plain c_-prefixed native variable name; the return value is assigned
to c__result. (The first hypothesis requires every parameter's type id to
be present in the table, since the direct table subscript of line 356
raises an uncaught KeyError otherwise; the second records that the
parameter names contain no placeholder tokens, so that the default
argument is literally the plain prefixed name.) -/
theorem claim_C5_call_chunk (types : List (String × TypeDesc)) (function : String)
    (params : List (String × ParamSpec))
    (htypes : ∀ pp ∈ params, (alookup pp.2.type types).isSome = true)
    (hclean : ∀ pp ∈ params,
      pyReplace (pyReplace ("c_" ++ pp.1) "%C%" ("c_" ++ pp.1)) "%I%" pp.1 =
        "c_" ++ pp.1) :
    ∃ args : List String,
      chunk_call types function params = Except.ok (String.intercalate "\n"
        ["  if ((*env)->ExceptionCheck(env)) \x7b",
         "    c__result = IGRAPH_EINVAL;",
         "  \x7d else \x7b",
         "    c__result = " ++ function ++ "(" ++ String.intercalate ", " args ++ ");",
         "  \x7d"]) ∧
      args.length = params.length ∧
      ∀ (i : Nat) (hi : i < params.length) (hj : i < args.length),
        args.get ⟨i, hj⟩ =
          match ((alookup (params.get ⟨i, hi⟩).2.type types).getD TypeDesc.empty).CALL with
          | some c => pyReplace (pyReplace c "%C%" ("c_" ++ (params.get ⟨i, hi⟩).1)) "%I%"
              (params.get ⟨i, hi⟩).1
          | none => "c_" ++ (params.get ⟨i, hi⟩).1 := by
  have hts := mapE_lookupKE_ok types params htypes
  refine ⟨List.zipWith
      (fun c n => pyReplace (pyReplace c "%C%" ("c_" ++ n)) "%I%" n)
      (List.zipWith (fun t n => t.CALL.getD ("c_" ++ n))
        (params.map (fun pp => (alookup pp.2.type types).getD TypeDesc.empty))
        (params.map (fun pp => pp.1)))
      (params.map (fun pp => pp.1)), ?_, ?_, ?_⟩
  · simp only [chunk_call, hts]
  · simp
  · intro i hi hj
    simp only [List.get_eq_getElem, List.getElem_zipWith, List.getElem_map]
    cases hcallf : ((alookup (params.get ⟨i, hi⟩).2.type types).getD TypeDesc.empty).CALL with
    | some c =>
      simp only [List.get_eq_getElem] at hcallf
      simp [hcallf]
    | none =>
      simp only [List.get_eq_getElem] at hcallf
      simp only [hcallf, Option.getD_none]
      exact hclean (params.get ⟨i, hi⟩) (params.get_mem i hi)

/-- The type table of the C5 witness: GRAPH (present, no CALL template)
and LIST (with a CALL template). -/
def c5Types : List (String × TypeDesc) :=
  [("GRAPH", tdGRAPH), ("LIST", ⟨none, none, none, none, none, none, some "&%C%"⟩)]

/-- Witness for C5 at a concrete function with one templated and one
default argument, every parameter type present in the table. -/
theorem claim_C5_call_chunk_witness :
    ∃ args : List String,
      chunk_call c5Types "igraph_h"
          [("graph", ⟨"GRAPH", ParamMode.IN⟩), ("v", ⟨"LIST", ParamMode.OUT⟩)] =
        Except.ok (String.intercalate "\n"
          ["  if ((*env)->ExceptionCheck(env)) \x7b",
           "    c__result = IGRAPH_EINVAL;",
           "  \x7d else \x7b",
           "    c__result = " ++ "igraph_h" ++ "(" ++ String.intercalate ", " args ++ ");",
           "  \x7d"]) ∧
      args.length = [("graph", (⟨"GRAPH", ParamMode.IN⟩ : ParamSpec)),
        ("v", ⟨"LIST", ParamMode.OUT⟩)].length ∧
      ∀ (i : Nat)
        (hi : i < [("graph", (⟨"GRAPH", ParamMode.IN⟩ : ParamSpec)),
          ("v", ⟨"LIST", ParamMode.OUT⟩)].length) (hj : i < args.length),
        args.get ⟨i, hj⟩ =
          match ((alookup ([("graph", (⟨"GRAPH", ParamMode.IN⟩ : ParamSpec)),
              ("v", ⟨"LIST", ParamMode.OUT⟩)].get ⟨i, hi⟩).2.type c5Types).getD
              TypeDesc.empty).CALL with
          | some c => pyReplace (pyReplace c "%C%"
              ("c_" ++ ([("graph", (⟨"GRAPH", ParamMode.IN⟩ : ParamSpec)),
                ("v", ⟨"LIST", ParamMode.OUT⟩)].get ⟨i, hi⟩).1)) "%I%"
              ([("graph", (⟨"GRAPH", ParamMode.IN⟩ : ParamSpec)),
                ("v", ⟨"LIST", ParamMode.OUT⟩)].get ⟨i, hi⟩).1
          | none => "c_" ++ ([("graph", (⟨"GRAPH", ParamMode.IN⟩ : ParamSpec)),
              ("v", ⟨"LIST", ParamMode.OUT⟩)].get ⟨i, hi⟩).1 :=
  claim_C5_call_chunk c5Types "igraph_h"
    [("graph", ⟨"GRAPH", ParamMode.IN⟩), ("v", ⟨"LIST", ParamMode.OUT⟩)]
    (by decide) (by decide)

lemma outconvPar_ok (types : List (String × TypeDesc)) (pname : String) (ps : ParamSpec)
    (h : (alookup ps.type types).isSome = true) :
    ∃ s, outconvPar types pname ps = Except.ok s := by
  cases halook : alookup ps.type types with
  | none => rw [halook] at h; simp at h
  | some t =>
    cases hres : outconvPar types pname ps with
    | ok s => exact ⟨s, rfl⟩
    | error e =>
      simp only [outconvPar, lookupKE, halook] at hres
      exact Except.noConfusion hres

lemma mapE_outconv_ok (types : List (String × TypeDesc))
    (params : List (String × ParamSpec))
    (h : ∀ pp ∈ params, (alookup pp.2.type types).isSome = true) :
    ∃ l, mapE (fun pp => outconvPar types pp.1 pp.2) params = Except.ok l := by
  induction params with
  | nil => exact ⟨[], rfl⟩
  | cons pp rest ih =>
    obtain ⟨s, hs⟩ := outconvPar_ok types pp.1 pp.2 (h pp (by simp))
    obtain ⟨l, hl⟩ := ih (fun x hx => h x (by simp [hx]))
    exact ⟨s :: l, by simp only [mapE, hs, hl]⟩

/-- Claim C6: for every function with exactly one OUT or INOUT parameter,
the output-conversion chunk wraps the result assignment in a guard that
the native return code equals the success code (c__result == 0); in the
success branch the result is assigned the parameter's j_-prefixed foreign
variable when its mode is OUT and the parameter's own (already converted)
variable when its mode is INOUT; in the failure branch the result is
assigned the failure sentinel 0. -/
theorem claim_C6_outconv (types : List (String × TypeDesc)) (fd : FunctionDescriptor)
    (function : String) (params : List (String × ParamSpec)) (qn : String)
    (qp : ParamSpec)
    (hq : params.filter (fun pp => pp.2.is_output) = [(qn, qp)])
    (htypes : ∀ pp ∈ params, (alookup pp.2.type types).isSome = true) :
    ∃ convs, chunk_outconv types fd function params = Except.ok (String.intercalate "\n"
      (("  " ++ "if (c__result == 0) \x7b") :: convs ++
       ["  " ++ (if qp.mode == ParamMode.OUT then "  result = j_" ++ qn ++ ";"
          else "  result = " ++ qn ++ ";"),
        "  " ++ "\x7d else \x7b",
        "  " ++ "  result = 0;",
        "  " ++ "\x7d"])) := by
  obtain ⟨l, hl⟩ := mapE_outconv_ok types params htypes
  refine ⟨(l.filter (fun s => s != "")).map (fun line => "  " ++ line), ?_⟩
  simp only [chunk_outconv, hl, hq]
  simp [List.map_append, List.map_cons, List.append_assoc]

/-- Witness for C6 at a concrete function with one OUT parameter. -/
theorem claim_C6_outconv_witness :
    ∃ convs, chunk_outconv exTypes ⟨none, some "INTEGER"⟩ "igraph_f"
        [("graph", ⟨"GRAPH", ParamMode.IN⟩), ("res", ⟨"INTEGER", ParamMode.OUT⟩)] =
      Except.ok (String.intercalate "\n"
        (("  " ++ "if (c__result == 0) \x7b") :: convs ++
         ["  " ++ (if (⟨"INTEGER", ParamMode.OUT⟩ : ParamSpec).mode == ParamMode.OUT
            then "  result = j_" ++ "res" ++ ";" else "  result = " ++ "res" ++ ";"),
          "  " ++ "\x7d else \x7b",
          "  " ++ "  result = 0;",
          "  " ++ "\x7d"])) :=
  claim_C6_outconv exTypes ⟨none, some "INTEGER"⟩ "igraph_f"
    [("graph", ⟨"GRAPH", ParamMode.IN⟩), ("res", ⟨"INTEGER", ParamMode.OUT⟩)]
    "res" ⟨"INTEGER", ParamMode.OUT⟩ (by decide) (by decide)

lemma javaCGenerateAppend (types : List (String × TypeDesc)) (xs ys : List FuncEntry) :
    JavaC.generate types (xs ++ ys) =
      match JavaC.generate types xs with
      | Except.error e => Except.error e
      | Except.ok a =>
        match JavaC.generate types ys with
        | Except.error e => Except.error e
        | Except.ok b => Except.ok (a ++ b) := by
  induction xs with
  | nil =>
    cases hys : JavaC.generate types ys with
    | error e => simp [JavaC.generate, hys]
    | ok b => simp [JavaC.generate, hys, String.empty_append]
  | cons fe rest ih =>
    simp only [List.cons_append, JavaC.generate, List.append_eq]
    rw [ih]
    cases hfe : JavaC.generate_function types fe <;>
      cases hrest : JavaC.generate types rest <;>
        cases hys : JavaC.generate types ys <;>
          simp [strAppendAssoc]

/-- Claim C3: a per-function failure of metadata resolution or chunk
assembly (a StimulusError: unknown type, unsupported calling convention)
aborts generation for that function only: the full-body generator writes a
comment carrying the error message in place of code (and the
declaration-only generator a comment line), and batch generation over
the remaining functions continues, the failed function contributing only
its comment. -/
theorem claim_C3_per_function_failure (types : List (String × TypeDesc))
    (fe : FuncEntry) (e : String) (xs ys : List FuncEntry) :
    (get_function_metadata types fe.name fe.fd fe.params TypeParam.CTYPE =
        Except.error e →
      JavaC.generate_function types fe = Except.ok ("/* " ++ e ++ " */\n")) ∧
    (∀ md, get_function_metadata types fe.name fe.fd fe.params TypeParam.CTYPE =
        Except.ok md →
      fe.params.any (fun pp => (alookup pp.2.type types).isNone) = false →
      JavaC.assemble types md fe = Except.error (GenError.stimulus e) →
      JavaC.generate_function types fe = Except.ok ("/* " ++ e ++ " */\n")) ∧
    (JavaC.generate_function types fe = Except.ok ("/* " ++ e ++ " */\n") →
      JavaC.generate types (xs ++ fe :: ys) =
        match JavaC.generate types xs with
        | Except.error e2 => Except.error e2
        | Except.ok a =>
          match JavaC.generate types ys with
          | Except.error e2 => Except.error e2
          | Except.ok b => Except.ok (a ++ ("/* " ++ e ++ " */\n") ++ b)) ∧
    (get_function_metadata types fe.name fe.fd fe.params TypeParam.JAVATYPE =
        Except.error e →
      JavaJava.generate_function types fe = "    // " ++ e ++ "\n") := by
  refine ⟨?_, ?_, ?_, ?_⟩
  · intro h
    simp only [JavaC.generate_function, h]
  · intro md hmd hpre hasm
    simp [JavaC.generate_function, hmd, hpre, hasm]
  · intro hgf
    rw [javaCGenerateAppend types xs (fe :: ys)]
    simp only [JavaC.generate, hgf]
    cases hxs : JavaC.generate types xs <;> cases hys : JavaC.generate types ys <;>
      simp [strAppendAssoc]
  · intro h
    simp only [JavaJava.generate_function, h]

/-- A type table holding only a native (CTYPE) representation of INTEGER,
used to exercise the unknown-foreign-type failure. -/
def cTypesOnly : List (String × TypeDesc) :=
  [("INTEGER", ⟨some "int", none, none, none, none, none, none⟩)]

/-- Witness for C3: a two-OUT-parameter function fails metadata resolution
and contributes only a comment to the batch; a function whose type lacks
JAVATYPE fails chunk assembly (header) and is replaced by a comment; the
declaration-only generator emits a comment line. -/
theorem claim_C3_per_function_failure_witness :
    JavaC.generate_function cTypesOnly
        ⟨"igraph_f", ⟨none, none⟩,
         [("a", ⟨"INTEGER", ParamMode.OUT⟩), ("b", ⟨"INTEGER", ParamMode.OUT⟩)], []⟩ =
      Except.ok ("/* " ++ "f: calling convention unsupported yet" ++ " */\n") ∧
    JavaC.generate_function cTypesOnly
        ⟨"igraph_f", ⟨none, some "INTEGER"⟩, [("a", ⟨"INTEGER", ParamMode.IN⟩)], []⟩ =
      Except.ok ("/* " ++ "f: unknown input type INTEGER (needs JAVATYPE), skipping" ++
        " */\n") ∧
    JavaC.generate cTypesOnly
        ([] ++ ⟨"igraph_f", ⟨none, none⟩,
          [("a", ⟨"INTEGER", ParamMode.OUT⟩), ("b", ⟨"INTEGER", ParamMode.OUT⟩)], []⟩ ::
         [⟨"igraph_f", ⟨none, some "INTEGER"⟩, [("a", ⟨"INTEGER", ParamMode.IN⟩)], []⟩]) =
      Except.ok ("" ++ ("/* " ++ "f: calling convention unsupported yet" ++ " */\n") ++
        ("/* " ++ "f: unknown input type INTEGER (needs JAVATYPE), skipping" ++ " */\n")) ∧
    JavaJava.generate_function cTypesOnly
        ⟨"igraph_f", ⟨none, none⟩,
         [("a", ⟨"INTEGER", ParamMode.OUT⟩), ("b", ⟨"INTEGER", ParamMode.OUT⟩)], []⟩ =
      "    // " ++ "f: calling convention unsupported yet" ++ "\n" := by
  have h1 := (claim_C3_per_function_failure cTypesOnly
    ⟨"igraph_f", ⟨none, none⟩,
     [("a", ⟨"INTEGER", ParamMode.OUT⟩), ("b", ⟨"INTEGER", ParamMode.OUT⟩)], []⟩
    "f: calling convention unsupported yet" [] []).1 (by rfl)
  have h2 := (claim_C3_per_function_failure cTypesOnly
    ⟨"igraph_f", ⟨none, some "INTEGER"⟩, [("a", ⟨"INTEGER", ParamMode.IN⟩)], []⟩
    "f: unknown input type INTEGER (needs JAVATYPE), skipping" [] []).2.1
    ⟨"F", "public static", "int", ["int a"], none, true, false⟩ (by rfl) (by rfl) (by rfl)
  have h3 := (claim_C3_per_function_failure cTypesOnly
    ⟨"igraph_f", ⟨none, none⟩,
     [("a", ⟨"INTEGER", ParamMode.OUT⟩), ("b", ⟨"INTEGER", ParamMode.OUT⟩)], []⟩
    "f: calling convention unsupported yet" []
    [⟨"igraph_f", ⟨none, some "INTEGER"⟩, [("a", ⟨"INTEGER", ParamMode.IN⟩)], []⟩]).2.2.1 h1
  have h4 := (claim_C3_per_function_failure cTypesOnly
    ⟨"igraph_f", ⟨none, none⟩,
     [("a", ⟨"INTEGER", ParamMode.OUT⟩), ("b", ⟨"INTEGER", ParamMode.OUT⟩)], []⟩
    "f: calling convention unsupported yet" [] []).2.2.2 (by rfl)
  refine ⟨h1, h2, ?_, h4⟩
  rw [h3]
  rfl

lemma processLines_eq (types : List (String × TypeDesc)) (fns : List FuncEntry) :
    ∀ lines : List String, JavaJava.processLines types fns lines =
      String.join (lines.map (fun line =>
        if JavaJava.containsMarker line then
          String.join (fns.map (JavaJava.generate_function types))
        else line)) := by
  intro lines
  induction lines with
  | nil => rfl
  | cons line rest ih =>
    simp only [JavaJava.processLines, List.map_cons, strJoinCons, ih]

/-- Claim C9: in template mode, more than one input source is rejected
with an error; for a single input source, every line not containing the
%STIMULUS% marker is written to the output unchanged and every line
containing the marker is replaced by the concatenation, in declaration
order, of the per-function one-line signatures (or per-function error
comments). -/
theorem claim_C9_template_mode (types : List (String × TypeDesc))
    (fns : List FuncEntry) (inputs : List (List String)) :
    (inputs.length > 1 → JavaJava.generate types fns inputs =
      Except.error "Java code generator supports only a single input") ∧
    (∀ lines, inputs = [lines] → JavaJava.generate types fns inputs =
      Except.ok (String.join (lines.map (fun line =>
        if JavaJava.containsMarker line then
          String.join (fns.map (JavaJava.generate_function types))
        else line)))) := by
  constructor
  · intro h
    simp only [JavaJava.generate, if_pos h]
  · intro lines hl
    subst hl
    simp only [JavaJava.generate, List.length_cons, List.length_nil]
    rw [if_neg (by omega)]
    rw [show ([lines] : List (List String)).headD [] = lines from rfl]
    rw [processLines_eq]

/-- Witness for C9: two inputs are rejected; a single input with one
marker line and one plain line maps to the join of the per-line outputs. -/
theorem claim_C9_template_mode_witness :
    JavaJava.generate [] [] [["a\n"], ["b\n"]] =
      Except.error "Java code generator supports only a single input" ∧
    JavaJava.generate [] [] [["x\n", "%STIMULUS% y\n"]] =
      Except.ok (String.join ([["x\n", "%STIMULUS% y\n"]].headD [] |>.map
        (fun line => if JavaJava.containsMarker line then
          String.join (([] : List FuncEntry).map (JavaJava.generate_function []))
        else line))) :=
  ⟨(claim_C9_template_mode [] [] [["a\n"], ["b\n"]]).1 (by decide),
   (claim_C9_template_mode [] [] [["x\n", "%STIMULUS% y\n"]]).2
     ["x\n", "%STIMULUS% y\n"] rfl⟩
